import Mathlib

/-! IEEE 802.11 / Wi-Fi definitions (`include/zephyr/net/wifi.h`)

A shallow embedding of the header: the enumerations are transcribed as
written (enumerator name with the initialiser the source gives it) and their
values are computed by the C rule for enumerators; the two string tables
are built from their designated initialisers; the two inline lookup helpers
are functions on the mathematical integers restricted to the `int16_t`
range, and a read outside the table is made explicit as `none`.
-/

namespace Wifi

/-! ## Enumerations -/

/-- Initialiser of an enumerator, in the forms that occur in wifi.h. -/
inductive EnumInit where
  /-- No initialiser: one more than the previous enumerator, 0 for the first. -/
  | auto
  /-- An integer literal: `= 16`. -/
  | lit (v : Int)
  /-- Another enumerator: `= WIFI_SECURITY_TYPE_SAE`. -/
  | same (name : String)
  /-- Another enumerator minus one: `= __WIFI_STATE_AFTER_LAST - 1`. -/
  | minus1 (name : String)
  /-- A single-bit mask: `= BIT(3)`. -/
  | bit (n : Nat)
deriving DecidableEq, Repr

/-- Modelled from the spec: the `BIT` macro comes from `zephyr/sys/util.h`, which is
not part of the excerpt; the spec describes the members defined with it as
flags that each occupy one bit, so `BIT(n)` is the value whose only set bit
is bit `n`. -/
def BIT (n : Nat) : Int := 2 ^ n

/-- Value of an already declared enumerator (first declaration wins). -/
def enumLookup (env : List (String × Int)) (name : String) : Option Int :=
  match env with
  | [] => none
  | (n, v) :: rest => if n = name then some v else enumLookup rest name

/-- Value of one initialiser, given the enumerators declared so far and the
value an enumerator without initialiser would get. -/
def enumInitValue (env : List (String × Int)) (next : Int) : EnumInit → Option Int
  | .auto => some next
  | .lit v => some v
  | .same n => enumLookup env n
  | .minus1 n => (enumLookup env n).map (fun v => v - 1)
  | .bit n => some (BIT n)

/-- Assigns values to the enumerators in declaration order; `none` when an
initialiser names an enumerator that is not declared yet. -/
def enumEval (env : List (String × Int)) (next : Int) :
    List (String × EnumInit) → Option (List (String × Int))
  | [] => some env
  | (n, i) :: rest =>
    match enumInitValue env next i with
    | none => none
    | some v => enumEval (env ++ [(n, v)]) (v + 1) rest

/-- The enumerators of a declaration with their values, in declaration order. -/
def enumValues (decl : List (String × EnumInit)) : List (String × Int) :=
  (enumEval [] 0 decl).getD []

/-- Value of the enumerator `name` of the declaration `decl`. -/
def enumVal (decl : List (String × EnumInit)) (name : String) : Option Int :=
  enumLookup (enumValues decl) name

/-- The declaration `enum wifi_conn_status` (wifi.h line 44). -/
def wifi_conn_status : List (String × EnumInit) :=
  [ ("WIFI_STATUS_CONN_SUCCESS", .lit 0),
    ("WIFI_STATUS_CONN_FAIL", .auto),
    ("WIFI_STATUS_CONN_WRONG_PASSWORD", .auto),
    ("WIFI_STATUS_CONN_TIMEOUT", .auto),
    ("WIFI_STATUS_CONN_AP_NOT_FOUND", .auto),
    ("WIFI_STATUS_CONN_LAST_STATUS", .auto),
    ("WIFI_STATUS_DISCONN_FIRST_STATUS", .same "WIFI_STATUS_CONN_LAST_STATUS") ]

/-- The declaration `enum wifi_security_type` (wifi.h line 69). -/
def wifi_security_type : List (String × EnumInit) :=
  [ ("WIFI_SECURITY_TYPE_NONE", .lit 0),
    ("WIFI_SECURITY_TYPE_PSK", .auto),
    ("WIFI_SECURITY_TYPE_PSK_SHA256", .auto),
    ("WIFI_SECURITY_TYPE_SAE", .auto),
    ("WIFI_SECURITY_TYPE_SAE_HNP", .same "WIFI_SECURITY_TYPE_SAE"),
    ("WIFI_SECURITY_TYPE_SAE_H2E", .auto),
    ("WIFI_SECURITY_TYPE_SAE_AUTO", .auto),
    ("WIFI_SECURITY_TYPE_WAPI", .auto),
    ("WIFI_SECURITY_TYPE_EAP", .auto),
    ("WIFI_SECURITY_TYPE_EAP_TLS", .same "WIFI_SECURITY_TYPE_EAP"),
    ("WIFI_SECURITY_TYPE_WEP", .auto),
    ("WIFI_SECURITY_TYPE_WPA_PSK", .auto),
    ("WIFI_SECURITY_TYPE_WPA_AUTO_PERSONAL", .auto),
    ("WIFI_SECURITY_TYPE_DPP", .auto),
    ("WIFI_SECURITY_TYPE_EAP_PEAP_MSCHAPV2", .auto),
    ("WIFI_SECURITY_TYPE_EAP_PEAP_GTC", .auto),
    ("WIFI_SECURITY_TYPE_EAP_TTLS_MSCHAPV2", .auto),
    ("WIFI_SECURITY_TYPE_EAP_PEAP_TLS", .auto),
    ("WIFI_SECURITY_TYPE_FT_PSK", .auto),
    ("WIFI_SECURITY_TYPE_FT_SAE", .auto),
    ("WIFI_SECURITY_TYPE_FT_EAP", .auto),
    ("WIFI_SECURITY_TYPE_FT_EAP_SHA384", .auto),
    ("WIFI_SECURITY_TYPE_SAE_EXT_KEY", .auto),
    ("__WIFI_SECURITY_TYPE_AFTER_LAST", .auto),
    ("WIFI_SECURITY_TYPE_MAX", .minus1 "__WIFI_SECURITY_TYPE_AFTER_LAST"),
    ("WIFI_SECURITY_TYPE_UNKNOWN", .auto) ]

/-- The declaration `enum wifi_eap_type` (wifi.h line 125). -/
def wifi_eap_type : List (String × EnumInit) :=
  [ ("WIFI_EAP_TYPE_NONE", .lit 0),
    ("WIFI_EAP_TYPE_GTC", .lit 6),
    ("WIFI_EAP_TYPE_TLS", .lit 13),
    ("WIFI_EAP_TYPE_TTLS", .lit 21),
    ("WIFI_EAP_TYPE_PEAP", .lit 25),
    ("WIFI_EAP_TYPE_MSCHAPV2", .lit 26) ]

/-- The declaration `enum wifi_wpa3_enterprise_type` (wifi.h line 145). -/
def wifi_wpa3_enterprise_type : List (String × EnumInit) :=
  [ ("WIFI_WPA3_ENTERPRISE_NA", .lit 0),
    ("WIFI_WPA3_ENTERPRISE_SUITEB", .lit 1),
    ("WIFI_WPA3_ENTERPRISE_SUITEB_192", .auto),
    ("WIFI_WPA3_ENTERPRISE_ONLY", .auto),
    ("__WIFI_WPA3_ENTERPRISE_AFTER_LAST", .auto),
    ("WIFI_WPA3_ENTERPRISE_MAX", .minus1 "__WIFI_WPA3_ENTERPRISE_AFTER_LAST"),
    ("WIFI_WPA3_ENTERPRISE_UNKNOWN", .auto) ]

/-- The declaration `enum wifi_eap_tls_cipher_type` (wifi.h line 162). -/
def wifi_eap_tls_cipher_type : List (String × EnumInit) :=
  [ ("WIFI_EAP_TLS_NONE", .auto),
    ("WIFI_EAP_TLS_ECC_P384", .auto),
    ("WIFI_EAP_TLS_RSA_3K", .auto) ]

/-- The declaration `enum wifi_cipher_type` (wifi.h line 172). -/
def wifi_cipher_type : List (String × EnumInit) :=
  [ ("WPA_CAPA_ENC_CCMP", .auto),
    ("WPA_CAPA_ENC_GCMP", .auto),
    ("WPA_CAPA_ENC_GCMP_256", .auto) ]

/-- The declaration `enum wifi_group_mgmt_cipher_type` (wifi.h line 182). -/
def wifi_group_mgmt_cipher_type : List (String × EnumInit) :=
  [ ("WPA_CAPA_ENC_BIP", .auto),
    ("WPA_CAPA_ENC_BIP_GMAC_128", .auto),
    ("WPA_CAPA_ENC_BIP_GMAC_256", .auto) ]

/-- The declaration `enum wifi_mfp_options` (wifi.h line 239). -/
def wifi_mfp_options : List (String × EnumInit) :=
  [ ("WIFI_MFP_DISABLE", .lit 0),
    ("WIFI_MFP_OPTIONAL", .auto),
    ("WIFI_MFP_REQUIRED", .auto),
    ("__WIFI_MFP_AFTER_LAST", .auto),
    ("WIFI_MFP_MAX", .minus1 "__WIFI_MFP_AFTER_LAST"),
    ("WIFI_MFP_UNKNOWN", .auto) ]

/-- The declaration `enum wifi_frequency_bands` (wifi.h line 260). -/
def wifi_frequency_bands : List (String × EnumInit) :=
  [ ("WIFI_FREQ_BAND_2_4_GHZ", .lit 0),
    ("WIFI_FREQ_BAND_5_GHZ", .auto),
    ("WIFI_FREQ_BAND_6_GHZ", .auto),
    ("__WIFI_FREQ_BAND_AFTER_LAST", .auto),
    ("WIFI_FREQ_BAND_MAX", .minus1 "__WIFI_FREQ_BAND_AFTER_LAST"),
    ("WIFI_FREQ_BAND_UNKNOWN", .auto) ]

/-- The declaration `enum wifi_frequency_bandwidths` (wifi.h line 282). -/
def wifi_frequency_bandwidths : List (String × EnumInit) :=
  [ ("WIFI_FREQ_BANDWIDTH_20MHZ", .lit 1),
    ("WIFI_FREQ_BANDWIDTH_40MHZ", .auto),
    ("WIFI_FREQ_BANDWIDTH_80MHZ", .auto),
    ("__WIFI_FREQ_BANDWIDTH_AFTER_LAST", .auto),
    ("WIFI_FREQ_BANDWIDTH_MAX", .minus1 "__WIFI_FREQ_BANDWIDTH_AFTER_LAST"),
    ("WIFI_FREQ_BANDWIDTH_UNKNOWN", .auto) ]

/-- The declaration `enum wifi_iface_state` (wifi.h line 326). -/
def wifi_iface_state : List (String × EnumInit) :=
  [ ("WIFI_STATE_DISCONNECTED", .lit 0),
    ("WIFI_STATE_INTERFACE_DISABLED", .auto),
    ("WIFI_STATE_INACTIVE", .auto),
    ("WIFI_STATE_SCANNING", .auto),
    ("WIFI_STATE_AUTHENTICATING", .auto),
    ("WIFI_STATE_ASSOCIATING", .auto),
    ("WIFI_STATE_ASSOCIATED", .auto),
    ("WIFI_STATE_4WAY_HANDSHAKE", .auto),
    ("WIFI_STATE_GROUP_HANDSHAKE", .auto),
    ("WIFI_STATE_COMPLETED", .auto),
    ("__WIFI_STATE_AFTER_LAST", .auto),
    ("WIFI_STATE_MAX", .minus1 "__WIFI_STATE_AFTER_LAST"),
    ("WIFI_STATE_UNKNOWN", .auto) ]

/-- The declaration `enum wifi_iface_mode` (wifi.h line 374). -/
def wifi_iface_mode : List (String × EnumInit) :=
  [ ("WIFI_MODE_INFRA", .lit 0),
    ("WIFI_MODE_IBSS", .lit 1),
    ("WIFI_MODE_AP", .lit 2),
    ("WIFI_MODE_P2P_GO", .lit 3),
    ("WIFI_MODE_P2P_GROUP_FORMATION", .lit 4),
    ("WIFI_MODE_MESH", .lit 5),
    ("__WIFI_MODE_AFTER_LAST", .auto),
    ("WIFI_MODE_MAX", .minus1 "__WIFI_MODE_AFTER_LAST"),
    ("WIFI_MODE_UNKNOWN", .auto) ]

/-- The declaration `enum wifi_link_mode` (wifi.h line 402). -/
def wifi_link_mode : List (String × EnumInit) :=
  [ ("WIFI_0", .lit 0),
    ("WIFI_1", .auto),
    ("WIFI_2", .auto),
    ("WIFI_3", .auto),
    ("WIFI_4", .auto),
    ("WIFI_5", .auto),
    ("WIFI_6", .auto),
    ("WIFI_6E", .auto),
    ("WIFI_7", .auto),
    ("__WIFI_LINK_MODE_AFTER_LAST", .auto),
    ("WIFI_LINK_MODE_MAX", .minus1 "__WIFI_LINK_MODE_AFTER_LAST"),
    ("WIFI_LINK_MODE_UNKNOWN", .auto) ]

/-- The declaration `enum wifi_scan_type` (wifi.h line 433). -/
def wifi_scan_type : List (String × EnumInit) :=
  [ ("WIFI_SCAN_TYPE_ACTIVE", .lit 0),
    ("WIFI_SCAN_TYPE_PASSIVE", .auto) ]

/-- The declaration `enum wifi_ps` (wifi.h line 441). -/
def wifi_ps : List (String × EnumInit) :=
  [ ("WIFI_PS_DISABLED", .lit 0),
    ("WIFI_PS_ENABLED", .auto) ]

/-- The declaration `enum wifi_ps_mode` (wifi.h line 452). -/
def wifi_ps_mode : List (String × EnumInit) :=
  [ ("WIFI_PS_MODE_LEGACY", .lit 0),
    ("WIFI_PS_MODE_WMM", .auto) ]

/-- The declaration `enum wifi_operational_modes` (wifi.h line 471). -/
def wifi_operational_modes : List (String × EnumInit) :=
  [ ("WIFI_STA_MODE", .bit 0),
    ("WIFI_MONITOR_MODE", .bit 1),
    ("WIFI_TX_INJECTION_MODE", .bit 2),
    ("WIFI_PROMISCUOUS_MODE", .bit 3),
    ("WIFI_AP_MODE", .bit 4),
    ("WIFI_SOFTAP_MODE", .bit 5) ]

/-- The declaration `enum wifi_filter` (wifi.h line 487). -/
def wifi_filter : List (String × EnumInit) :=
  [ ("WIFI_PACKET_FILTER_ALL", .bit 0),
    ("WIFI_PACKET_FILTER_MGMT", .bit 1),
    ("WIFI_PACKET_FILTER_DATA", .bit 2),
    ("WIFI_PACKET_FILTER_CTRL", .bit 3) ]

/-- The declaration `enum wifi_twt_operation` (wifi.h line 499). -/
def wifi_twt_operation : List (String × EnumInit) :=
  [ ("WIFI_TWT_SETUP", .lit 0),
    ("WIFI_TWT_TEARDOWN", .auto) ]

/-- The declaration `enum wifi_twt_negotiation_type` (wifi.h line 510). -/
def wifi_twt_negotiation_type : List (String × EnumInit) :=
  [ ("WIFI_TWT_INDIVIDUAL", .lit 0),
    ("WIFI_TWT_BROADCAST", .auto),
    ("WIFI_TWT_WAKE_TBTT", .auto) ]

/-- The declaration `enum wifi_twt_setup_cmd` (wifi.h line 523). -/
def wifi_twt_setup_cmd : List (String × EnumInit) :=
  [ ("WIFI_TWT_SETUP_CMD_REQUEST", .lit 0),
    ("WIFI_TWT_SETUP_CMD_SUGGEST", .auto),
    ("WIFI_TWT_SETUP_CMD_DEMAND", .auto),
    ("WIFI_TWT_SETUP_CMD_GROUPING", .auto),
    ("WIFI_TWT_SETUP_CMD_ACCEPT", .auto),
    ("WIFI_TWT_SETUP_CMD_ALTERNATE", .auto),
    ("WIFI_TWT_SETUP_CMD_DICTATE", .auto),
    ("WIFI_TWT_SETUP_CMD_REJECT", .auto) ]

/-- The declaration `enum wifi_twt_setup_resp_status` (wifi.h line 546). -/
def wifi_twt_setup_resp_status : List (String × EnumInit) :=
  [ ("WIFI_TWT_RESP_RECEIVED", .lit 0),
    ("WIFI_TWT_RESP_NOT_RECEIVED", .auto) ]

/-- The declaration `enum wifi_twt_fail_reason` (wifi.h line 554). -/
def wifi_twt_fail_reason : List (String × EnumInit) :=
  [ ("WIFI_TWT_FAIL_UNSPECIFIED", .auto),
    ("WIFI_TWT_FAIL_CMD_EXEC_FAIL", .auto),
    ("WIFI_TWT_FAIL_OPERATION_NOT_SUPPORTED", .auto),
    ("WIFI_TWT_FAIL_UNABLE_TO_GET_IFACE_STATUS", .auto),
    ("WIFI_TWT_FAIL_DEVICE_NOT_CONNECTED", .auto),
    ("WIFI_TWT_FAIL_PEER_NOT_HE_CAPAB", .auto),
    ("WIFI_TWT_FAIL_PEER_NOT_TWT_CAPAB", .auto),
    ("WIFI_TWT_FAIL_OPERATION_IN_PROGRESS", .auto),
    ("WIFI_TWT_FAIL_INVALID_FLOW_ID", .auto),
    ("WIFI_TWT_FAIL_IP_NOT_ASSIGNED", .auto),
    ("WIFI_TWT_FAIL_FLOW_ALREADY_EXISTS", .auto) ]

/-- The declaration `enum wifi_twt_teardown_status` (wifi.h line 580). -/
def wifi_twt_teardown_status : List (String × EnumInit) :=
  [ ("WIFI_TWT_TEARDOWN_SUCCESS", .lit 0),
    ("WIFI_TWT_TEARDOWN_FAILED", .auto) ]

/-- The declaration `enum wifi_ps_param_type` (wifi.h line 621). -/
def wifi_ps_param_type : List (String × EnumInit) :=
  [ ("WIFI_PS_PARAM_STATE", .auto),
    ("WIFI_PS_PARAM_LISTEN_INTERVAL", .auto),
    ("WIFI_PS_PARAM_WAKEUP_MODE", .auto),
    ("WIFI_PS_PARAM_MODE", .auto),
    ("WIFI_PS_PARAM_EXIT_STRATEGY", .auto),
    ("WIFI_PS_PARAM_TIMEOUT", .auto) ]

/-- The declaration `enum wifi_ps_wakeup_mode` (wifi.h line 637). -/
def wifi_ps_wakeup_mode : List (String × EnumInit) :=
  [ ("WIFI_PS_WAKEUP_MODE_DTIM", .lit 0),
    ("WIFI_PS_WAKEUP_MODE_LISTEN_INTERVAL", .auto) ]

/-- The declaration `enum wifi_ps_exit_strategy` (wifi.h line 650). -/
def wifi_ps_exit_strategy : List (String × EnumInit) :=
  [ ("WIFI_PS_EXIT_CUSTOM_ALGO", .lit 0),
    ("WIFI_PS_EXIT_EVERY_TIM", .auto),
    ("WIFI_PS_EXIT_LAST", .auto),
    ("WIFI_PS_EXIT_MAX", .minus1 "WIFI_PS_EXIT_LAST") ]

/-- The declaration `enum wifi_config_ps_param_fail_reason` (wifi.h line 666). -/
def wifi_config_ps_param_fail_reason : List (String × EnumInit) :=
  [ ("WIFI_PS_PARAM_FAIL_UNSPECIFIED", .auto),
    ("WIFI_PS_PARAM_FAIL_CMD_EXEC_FAIL", .auto),
    ("WIFI_PS_PARAM_FAIL_OPERATION_NOT_SUPPORTED", .auto),
    ("WIFI_PS_PARAM_FAIL_UNABLE_TO_GET_IFACE_STATUS", .auto),
    ("WIFI_PS_PARAM_FAIL_DEVICE_NOT_CONNECTED", .auto),
    ("WIFI_PS_PARAM_FAIL_DEVICE_CONNECTED", .auto),
    ("WIFI_PS_PARAM_LISTEN_INTERVAL_RANGE_INVALID", .auto),
    ("WIFI_PS_PARAM_FAIL_INVALID_EXIT_STRATEGY", .auto) ]

/-- The declaration `enum wifi_btm_query_reason` (wifi.h line 705). -/
def wifi_btm_query_reason : List (String × EnumInit) :=
  [ ("WIFI_BTM_QUERY_REASON_UNSPECIFIED", .lit 0),
    ("WIFI_BTM_QUERY_REASON_LOW_RSSI", .lit 16),
    ("WIFI_BTM_QUERY_REASON_LEAVING_ESS", .lit 20) ]

/-- The declaration `enum wifi_ap_config_param` (wifi.h line 725). -/
def wifi_ap_config_param : List (String × EnumInit) :=
  [ ("WIFI_AP_CONFIG_PARAM_MAX_INACTIVITY", .bit 0),
    ("WIFI_AP_CONFIG_PARAM_MAX_NUM_STA", .bit 1),
    ("WIFI_AP_CONFIG_PARAM_BANDWIDTH", .bit 2),
    ("WIFI_AP_CONFIG_PARAM_HT_CAPAB", .bit 3),
    ("WIFI_AP_CONFIG_PARAM_VHT_CAPAB", .bit 4) ]

/-- The declaration `enum wifi_config_param` (wifi.h line 739). -/
def wifi_config_param : List (String × EnumInit) :=
  [ ("WIFI_CONFIG_PARAM_OKC", .bit 0) ]

/-- Every enumeration declared in wifi.h, by tag, in source order. -/
def wifi_h_enums : List (String × List (String × EnumInit)) :=
  [ ("wifi_conn_status", wifi_conn_status),
    ("wifi_security_type", wifi_security_type),
    ("wifi_eap_type", wifi_eap_type),
    ("wifi_wpa3_enterprise_type", wifi_wpa3_enterprise_type),
    ("wifi_eap_tls_cipher_type", wifi_eap_tls_cipher_type),
    ("wifi_cipher_type", wifi_cipher_type),
    ("wifi_group_mgmt_cipher_type", wifi_group_mgmt_cipher_type),
    ("wifi_mfp_options", wifi_mfp_options),
    ("wifi_frequency_bands", wifi_frequency_bands),
    ("wifi_frequency_bandwidths", wifi_frequency_bandwidths),
    ("wifi_iface_state", wifi_iface_state),
    ("wifi_iface_mode", wifi_iface_mode),
    ("wifi_link_mode", wifi_link_mode),
    ("wifi_scan_type", wifi_scan_type),
    ("wifi_ps", wifi_ps),
    ("wifi_ps_mode", wifi_ps_mode),
    ("wifi_operational_modes", wifi_operational_modes),
    ("wifi_filter", wifi_filter),
    ("wifi_twt_operation", wifi_twt_operation),
    ("wifi_twt_negotiation_type", wifi_twt_negotiation_type),
    ("wifi_twt_setup_cmd", wifi_twt_setup_cmd),
    ("wifi_twt_setup_resp_status", wifi_twt_setup_resp_status),
    ("wifi_twt_fail_reason", wifi_twt_fail_reason),
    ("wifi_twt_teardown_status", wifi_twt_teardown_status),
    ("wifi_ps_param_type", wifi_ps_param_type),
    ("wifi_ps_wakeup_mode", wifi_ps_wakeup_mode),
    ("wifi_ps_exit_strategy", wifi_ps_exit_strategy),
    ("wifi_config_ps_param_fail_reason", wifi_config_ps_param_fail_reason),
    ("wifi_btm_query_reason", wifi_btm_query_reason),
    ("wifi_ap_config_param", wifi_ap_config_param),
    ("wifi_config_param", wifi_config_param) ]

/-! ## String tables -/

/-- A `const char *` value: the null pointer or a string literal. -/
inductive CStr where
  | null
  | lit (s : String)
deriving DecidableEq, Repr

/-- Stores `s` at index `i` of an array under construction; the elements
skipped on the way are null pointers. -/
def arraySet : List CStr → Nat → CStr → List CStr
  | [], 0, s => [s]
  | [], i + 1, s => CStr.null :: arraySet [] i s
  | _ :: t, 0, s => s :: t
  | h :: t, i + 1, s => h :: arraySet t i s

/-- An array of strings given by designated initialisers `[ENUMERATOR] = "text"`:
its length is the largest designated index plus one. `none` when a
designator is not an enumerator or is negative. -/
def arrayInit (env : List (String × Int)) :
    List (String × String) → List CStr → Option (List CStr)
  | [], acc => some acc
  | (n, s) :: rest, acc =>
    match enumLookup env n with
    | none => none
    | some v => if 0 ≤ v then arrayInit env rest (arraySet acc v.toNat (CStr.lit s)) else none

/-- The initialisers of `wifi_twt_err_code_tbl` (wifi.h lines 588-607). -/
def wifi_twt_err_code_tbl_init : List (String × String) :=
  [ ("WIFI_TWT_FAIL_UNSPECIFIED", "Unspecified"),
    ("WIFI_TWT_FAIL_CMD_EXEC_FAIL", "Command Execution failed"),
    ("WIFI_TWT_FAIL_OPERATION_NOT_SUPPORTED", "Operation not supported"),
    ("WIFI_TWT_FAIL_UNABLE_TO_GET_IFACE_STATUS", "Unable to get iface status"),
    ("WIFI_TWT_FAIL_DEVICE_NOT_CONNECTED", "Device not connected"),
    ("WIFI_TWT_FAIL_PEER_NOT_HE_CAPAB", "Peer not HE capable"),
    ("WIFI_TWT_FAIL_PEER_NOT_TWT_CAPAB", "Peer not TWT capable"),
    ("WIFI_TWT_FAIL_OPERATION_IN_PROGRESS", "Operation already in progress"),
    ("WIFI_TWT_FAIL_INVALID_FLOW_ID", "Invalid negotiated flow id"),
    ("WIFI_TWT_FAIL_IP_NOT_ASSIGNED", "IP address not assigned"),
    ("WIFI_TWT_FAIL_FLOW_ALREADY_EXISTS", "Flow already exists") ]

/-- The table `wifi_twt_err_code_tbl`. -/
def wifi_twt_err_code_tbl : List CStr :=
  (arrayInit (enumValues wifi_twt_fail_reason) wifi_twt_err_code_tbl_init []).getD []

/-- The initialisers of `wifi_ps_param_config_err_code_tbl` (wifi.h lines 686-699). -/
def wifi_ps_param_config_err_code_tbl_init : List (String × String) :=
  [ ("WIFI_PS_PARAM_FAIL_UNSPECIFIED", "Unspecified"),
    ("WIFI_PS_PARAM_FAIL_CMD_EXEC_FAIL", "Command Execution failed"),
    ("WIFI_PS_PARAM_FAIL_OPERATION_NOT_SUPPORTED", "Operation not supported"),
    ("WIFI_PS_PARAM_FAIL_UNABLE_TO_GET_IFACE_STATUS", "Unable to get iface status"),
    ("WIFI_PS_PARAM_FAIL_DEVICE_NOT_CONNECTED",
      "Cannot set parameters while device not connected"),
    ("WIFI_PS_PARAM_FAIL_DEVICE_CONNECTED", "Cannot set parameters while device connected"),
    ("WIFI_PS_PARAM_LISTEN_INTERVAL_RANGE_INVALID", "Parameter out of range") ]

/-- The table `wifi_ps_param_config_err_code_tbl`. -/
def wifi_ps_param_config_err_code_tbl : List CStr :=
  (arrayInit (enumValues wifi_config_ps_param_fail_reason)
    wifi_ps_param_config_err_code_tbl_init []).getD []

/-! ## Lookup helpers -/

/-- Modelled from the spec: the `ARRAY_SIZE` macro comes from `zephyr/sys/util.h`,
which is not part of the excerpt; the spec calls its value the table length. -/
def ARRAY_SIZE (tbl : List CStr) : Nat := tbl.length

/-- The range of `int16_t`. -/
def isInt16 (n : Int) : Prop := -32768 ≤ n ∧ n ≤ 32767

instance (n : Int) : Decidable (isInt16 n) := by
  unfold isInt16; infer_instance

/-- The conversion `(int16_t)n`: reduction modulo 2^16 into the signed range. -/
def int16_cast (n : Int) : Int := (n + 32768) % 65536 - 32768

/-- The read `tbl[i]`. `none` stands for a read outside the array, whose
behaviour C leaves undefined. -/
def arrayRead (tbl : List CStr) (i : Int) : Option CStr :=
  if i < 0 then none else tbl.get? i.toNat

/-- The helper `wifi_twt_get_err_code_str` (wifi.h lines 611-618). -/
def wifi_twt_get_err_code_str (err_no : Int) : Option CStr :=
  if err_no < int16_cast (ARRAY_SIZE wifi_twt_err_code_tbl) then
    arrayRead wifi_twt_err_code_tbl err_no
  else
    some (CStr.lit "<unknown>")

/-- The helper `wifi_ps_get_config_err_code_str` (wifi.h lines 715-722). -/
def wifi_ps_get_config_err_code_str (err_no : Int) : Option CStr :=
  if err_no < int16_cast (ARRAY_SIZE wifi_ps_param_config_err_code_tbl) then
    arrayRead wifi_ps_param_config_err_code_tbl err_no
  else
    some (CStr.lit "<unknown>")

/-! ## The build-time check and the vocabulary of sentinels and flags -/

/-- The comparison `a < b` of two enumerators of `decl`. -/
def enumLt (decl : List (String × EnumInit)) (a b : String) : Bool :=
  match enumVal decl a, enumVal decl b with
  | some x, some y => decide (x < y)
  | _, _ => false

/-- The condition of the `BUILD_ASSERT` that follows `enum wifi_iface_state`
(wifi.h lines 356-364). -/
def wifi_iface_state_order : Bool :=
  enumLt wifi_iface_state "WIFI_STATE_DISCONNECTED" "WIFI_STATE_INTERFACE_DISABLED" &&
  enumLt wifi_iface_state "WIFI_STATE_INTERFACE_DISABLED" "WIFI_STATE_INACTIVE" &&
  enumLt wifi_iface_state "WIFI_STATE_INACTIVE" "WIFI_STATE_SCANNING" &&
  enumLt wifi_iface_state "WIFI_STATE_SCANNING" "WIFI_STATE_AUTHENTICATING" &&
  enumLt wifi_iface_state "WIFI_STATE_AUTHENTICATING" "WIFI_STATE_ASSOCIATING" &&
  enumLt wifi_iface_state "WIFI_STATE_ASSOCIATING" "WIFI_STATE_ASSOCIATED" &&
  enumLt wifi_iface_state "WIFI_STATE_ASSOCIATED" "WIFI_STATE_4WAY_HANDSHAKE" &&
  enumLt wifi_iface_state "WIFI_STATE_4WAY_HANDSHAKE" "WIFI_STATE_GROUP_HANDSHAKE" &&
  enumLt wifi_iface_state "WIFI_STATE_GROUP_HANDSHAKE" "WIFI_STATE_COMPLETED"

/-- The name `name` ends in `suffix`. -/
def hasSuffix (suffix name : String) : Bool :=
  suffix.toList.isSuffixOf name.toList

/-- A `*_MAX` enumerator. -/
def isMaxName (name : String) : Bool := hasSuffix "_MAX" name

/-- A `*_UNKNOWN` enumerator. -/
def isUnknownName (name : String) : Bool := hasSuffix "_UNKNOWN" name

/-- The marker that follows the last real member: `__*_AFTER_LAST`, and
`WIFI_PS_EXIT_LAST` in `enum wifi_ps_exit_strategy`. -/
def isLastMarker (name : String) : Bool := hasSuffix "_LAST" name

/-- A sentinel: a last-member marker, a `*_MAX` or a `*_UNKNOWN` enumerator. -/
def isSentinel (name : String) : Bool :=
  isLastMarker name || isMaxName name || isUnknownName name

/-- The last member of an enumeration that is not a sentinel. -/
def lastNonSentinel (vals : List (String × Int)) : Option (String × Int) :=
  (vals.filter (fun m => !isSentinel m.1)).getLast?

/-- The declaration has a `*_MAX` member. -/
def hasMaxMember (decl : List (String × EnumInit)) : Bool :=
  decl.any (fun m => isMaxName m.1)

/-- The declaration has a `*_UNKNOWN` member. -/
def hasUnknownMember (decl : List (String × EnumInit)) : Bool :=
  decl.any (fun m => isUnknownName m.1)

/-- Number of set bits of `v` among bits 0..31. -/
def bitCount (v : Int) : Nat :=
  ((List.range 32).filter (fun k => v.toNat.testBit k)).length

/-- The members of an enumeration that are not sentinels, with their values. -/
def realMembers (decl : List (String × EnumInit)) : List (String × Int) :=
  (enumValues decl).filter (fun m => !isSentinel m.1)

/-! ## Object-like macros -/

/-- The macro `WIFI_COUNTRY_CODE_LEN` (wifi.h line 28). -/
def WIFI_COUNTRY_CODE_LEN : Int := 2

/-- The macro `WIFI_LISTEN_INTERVAL_MIN` (wifi.h line 32). -/
def WIFI_LISTEN_INTERVAL_MIN : Int := 0

/-- The macro `WIFI_LISTEN_INTERVAL_MAX` (wifi.h line 33). -/
def WIFI_LISTEN_INTERVAL_MAX : Int := 65535

/-- The macro `WIFI_SSID_MAX_LEN` (wifi.h line 301). -/
def WIFI_SSID_MAX_LEN : Int := 32

/-- The macro `WIFI_PSK_MIN_LEN` (wifi.h line 303). -/
def WIFI_PSK_MIN_LEN : Int := 8

/-- The macro `WIFI_PSK_MAX_LEN` (wifi.h line 305). -/
def WIFI_PSK_MAX_LEN : Int := 64

/-- The macro `WIFI_SAE_PSWD_MAX_LEN` (wifi.h line 307). -/
def WIFI_SAE_PSWD_MAX_LEN : Int := 128

/-- The macro `WIFI_MAC_ADDR_LEN` (wifi.h line 309). -/
def WIFI_MAC_ADDR_LEN : Int := 6

/-- The macro `WIFI_ENT_IDENTITY_MAX_LEN` (wifi.h line 311). -/
def WIFI_ENT_IDENTITY_MAX_LEN : Int := 64

/-- The macro `WIFI_ENT_PSWD_MAX_LEN` (wifi.h line 313). -/
def WIFI_ENT_PSWD_MAX_LEN : Int := 128

/-- The macro `WIFI_CHANNEL_MIN` (wifi.h line 316). -/
def WIFI_CHANNEL_MIN : Int := 1

/-- The macro `WIFI_CHANNEL_MAX` (wifi.h line 318). -/
def WIFI_CHANNEL_MAX : Int := 233

/-- The macro `WIFI_CHANNEL_ANY` (wifi.h line 320). -/
def WIFI_CHANNEL_ANY : Int := 255

/-- The macro `WIFI_INTERFACE_INDEX_MIN` (wifi.h line 466). -/
def WIFI_INTERFACE_INDEX_MIN : Int := 1

/-- The macro `WIFI_INTERFACE_INDEX_MAX` (wifi.h line 468). -/
def WIFI_INTERFACE_INDEX_MAX : Int := 255

/-! ## The tables and their lengths -/

theorem wifi_twt_err_code_tbl_eq :
    wifi_twt_err_code_tbl =
      [ CStr.lit "Unspecified", CStr.lit "Command Execution failed",
        CStr.lit "Operation not supported", CStr.lit "Unable to get iface status",
        CStr.lit "Device not connected", CStr.lit "Peer not HE capable",
        CStr.lit "Peer not TWT capable", CStr.lit "Operation already in progress",
        CStr.lit "Invalid negotiated flow id", CStr.lit "IP address not assigned",
        CStr.lit "Flow already exists" ] := by
  decide

theorem wifi_ps_param_config_err_code_tbl_eq :
    wifi_ps_param_config_err_code_tbl =
      [ CStr.lit "Unspecified", CStr.lit "Command Execution failed",
        CStr.lit "Operation not supported", CStr.lit "Unable to get iface status",
        CStr.lit "Cannot set parameters while device not connected",
        CStr.lit "Cannot set parameters while device connected",
        CStr.lit "Parameter out of range" ] := by
  decide

theorem wifi_twt_err_code_tbl_size :
    int16_cast (ARRAY_SIZE wifi_twt_err_code_tbl) = 11 := by
  decide

theorem wifi_ps_param_config_err_code_tbl_size :
    int16_cast (ARRAY_SIZE wifi_ps_param_config_err_code_tbl) = 7 := by
  decide

/-- At or above the table length the TWT helper takes the fallback branch. -/
theorem twt_str_of_ge (i : Int) (h : 11 ≤ i) :
    wifi_twt_get_err_code_str i = some (CStr.lit "<unknown>") := by
  unfold wifi_twt_get_err_code_str
  rw [wifi_twt_err_code_tbl_size, if_neg (by omega)]

/-- At or above the table length the power-save helper takes the fallback branch. -/
theorem ps_str_of_ge (i : Int) (h : 7 ≤ i) :
    wifi_ps_get_config_err_code_str i = some (CStr.lit "<unknown>") := by
  unfold wifi_ps_get_config_err_code_str
  rw [wifi_ps_param_config_err_code_tbl_size, if_neg (by omega)]

/-- Below the table length the TWT helper reads the table. -/
theorem twt_str_of_lt (i : Int) (h : i < 11) :
    wifi_twt_get_err_code_str i = arrayRead wifi_twt_err_code_tbl i := by
  unfold wifi_twt_get_err_code_str
  rw [wifi_twt_err_code_tbl_size, if_pos h]

/-- Below the table length the power-save helper reads the table. -/
theorem ps_str_of_lt (i : Int) (h : i < 7) :
    wifi_ps_get_config_err_code_str i = arrayRead wifi_ps_param_config_err_code_tbl i := by
  unfold wifi_ps_get_config_err_code_str
  rw [wifi_ps_param_config_err_code_tbl_size, if_pos h]

/-! ## The lookup helpers on valid and on too large indices -/

/-- C1: for every index `0 <= i < 11` (11 is the length of `wifi_twt_err_code_tbl`),
`wifi_twt_get_err_code_str i` returns exactly the string stored at position `i`
of the table, and the strings are, in order, "Unspecified", "Command Execution
failed", "Operation not supported", "Unable to get iface status", "Device not
connected", "Peer not HE capable" (index 5 = `WIFI_TWT_FAIL_PEER_NOT_HE_CAPAB`),
"Peer not TWT capable", "Operation already in progress", "Invalid negotiated
flow id", "IP address not assigned", "Flow already exists". -/
theorem wifi_twt_get_err_code_str_valid (i : Int) (h0 : 0 ≤ i) (h1 : i < 11) :
    ARRAY_SIZE wifi_twt_err_code_tbl = 11 ∧
    wifi_twt_get_err_code_str i = wifi_twt_err_code_tbl[i.toNat]? ∧
    (∃ s, [ "Unspecified", "Command Execution failed", "Operation not supported",
            "Unable to get iface status", "Device not connected", "Peer not HE capable",
            "Peer not TWT capable", "Operation already in progress",
            "Invalid negotiated flow id", "IP address not assigned",
            "Flow already exists" ][i.toNat]? = some s ∧
          wifi_twt_get_err_code_str i = some (CStr.lit s)) ∧
    enumVal wifi_twt_fail_reason "WIFI_TWT_FAIL_PEER_NOT_HE_CAPAB" = some 5 := by
  interval_cases i <;>
    exact ⟨by decide, by decide, ⟨_, rfl, by decide⟩, by decide⟩

theorem wifi_twt_get_err_code_str_valid_witness :
    (0 : Int) ≤ 5 ∧ (5 : Int) < 11 ∧
    wifi_twt_get_err_code_str 5 = some (CStr.lit "Peer not HE capable") := by
  refine ⟨by decide, by decide, ?_⟩
  obtain ⟨_, _, ⟨s, hs, h⟩, _⟩ := wifi_twt_get_err_code_str_valid 5 (by decide) (by decide)
  have hs5 : s = "Peer not HE capable" := by
    have := hs
    simp at this
    exact this.symm
  rw [h, hs5]

/-- C2 (the code at a negative index): `-1` and `-32768` are `int16_t` values,
both pass the guard `err_no < (int16_t)ARRAY_SIZE(tbl)` of either helper, and
the helper then reads the table at a negative index, outside its bounds,
instead of returning "<unknown>". -/
theorem err_code_str_negative_index :
    isInt16 (-1) ∧ isInt16 (-32768) ∧
    (-1 : Int) < int16_cast (ARRAY_SIZE wifi_twt_err_code_tbl) ∧
    (-1 : Int) < int16_cast (ARRAY_SIZE wifi_ps_param_config_err_code_tbl) ∧
    wifi_twt_get_err_code_str (-1) = none ∧
    wifi_ps_get_config_err_code_str (-1) = none ∧
    wifi_twt_get_err_code_str (-32768) = none ∧
    wifi_ps_get_config_err_code_str (-32768) = none ∧
    wifi_twt_get_err_code_str (-1) ≠ some (CStr.lit "<unknown>") ∧
    wifi_ps_get_config_err_code_str (-1) ≠ some (CStr.lit "<unknown>") := by
  decide

/-- C3: for every signed 16-bit index `i` with `11 <= i <= 32767`,
`wifi_twt_get_err_code_str i` returns "<unknown>". -/
theorem wifi_twt_get_err_code_str_too_large (i : Int) (h0 : 11 ≤ i) (h1 : i ≤ 32767) :
    isInt16 i ∧ wifi_twt_get_err_code_str i = some (CStr.lit "<unknown>") :=
  ⟨⟨by omega, h1⟩, twt_str_of_ge i h0⟩

theorem wifi_twt_get_err_code_str_too_large_witness :
    (11 : Int) ≤ 11 ∧ (11 : Int) ≤ 32767 ∧
    wifi_twt_get_err_code_str 11 = some (CStr.lit "<unknown>") :=
  ⟨by decide, by decide,
    (wifi_twt_get_err_code_str_too_large 11 (by decide) (by decide)).2⟩

/-- C4: for every index `0 <= i < 7` (7 is the length of
`wifi_ps_param_config_err_code_tbl`), `wifi_ps_get_config_err_code_str i` returns
exactly the string stored at position `i` of that table, and the strings are, in
order, "Unspecified", "Command Execution failed", "Operation not supported",
"Unable to get iface status", "Cannot set parameters while device not connected",
"Cannot set parameters while device connected", "Parameter out of range". -/
theorem wifi_ps_get_config_err_code_str_valid (i : Int) (h0 : 0 ≤ i) (h1 : i < 7) :
    ARRAY_SIZE wifi_ps_param_config_err_code_tbl = 7 ∧
    wifi_ps_get_config_err_code_str i = wifi_ps_param_config_err_code_tbl[i.toNat]? ∧
    (∃ s, [ "Unspecified", "Command Execution failed", "Operation not supported",
            "Unable to get iface status",
            "Cannot set parameters while device not connected",
            "Cannot set parameters while device connected",
            "Parameter out of range" ][i.toNat]? = some s ∧
          wifi_ps_get_config_err_code_str i = some (CStr.lit s)) := by
  interval_cases i <;>
    exact ⟨by decide, by decide, ⟨_, rfl, by decide⟩⟩

theorem wifi_ps_get_config_err_code_str_valid_witness :
    (0 : Int) ≤ 6 ∧ (6 : Int) < 7 ∧
    wifi_ps_get_config_err_code_str 6 = wifi_ps_param_config_err_code_tbl[6]? :=
  ⟨by decide, by decide,
    (wifi_ps_get_config_err_code_str_valid 6 (by decide) (by decide)).2.1⟩

/-- C5: for every signed 16-bit index `i` with `7 <= i <= 32767`,
`wifi_ps_get_config_err_code_str i` returns "<unknown>". -/
theorem wifi_ps_get_config_err_code_str_too_large (i : Int) (h0 : 7 ≤ i)
    (h1 : i ≤ 32767) :
    isInt16 i ∧ wifi_ps_get_config_err_code_str i = some (CStr.lit "<unknown>") :=
  ⟨⟨by omega, h1⟩, ps_str_of_ge i h0⟩

theorem wifi_ps_get_config_err_code_str_too_large_witness :
    (7 : Int) ≤ 7 ∧ (7 : Int) ≤ 32767 ∧
    wifi_ps_get_config_err_code_str 7 = some (CStr.lit "<unknown>") :=
  ⟨by decide, by decide,
    (wifi_ps_get_config_err_code_str_too_large 7 (by decide) (by decide)).2⟩

/-! ## Enumeration values -/

/-- C6: the values of `enum wifi_iface_state` are strictly increasing in the
listed order, DISCONNECTED < INTERFACE_DISABLED < INACTIVE < SCANNING <
AUTHENTICATING < ASSOCIATING < ASSOCIATED < 4WAY_HANDSHAKE < GROUP_HANDSHAKE <
COMPLETED (they are 0, 1, ..., 9), so the condition of the `BUILD_ASSERT` holds
for the values the enumeration assigns. -/
theorem wifi_iface_state_strictly_increasing :
    wifi_iface_state_order = true ∧
    [ "WIFI_STATE_DISCONNECTED", "WIFI_STATE_INTERFACE_DISABLED", "WIFI_STATE_INACTIVE",
      "WIFI_STATE_SCANNING", "WIFI_STATE_AUTHENTICATING", "WIFI_STATE_ASSOCIATING",
      "WIFI_STATE_ASSOCIATED", "WIFI_STATE_4WAY_HANDSHAKE", "WIFI_STATE_GROUP_HANDSHAKE",
      "WIFI_STATE_COMPLETED" ].map (enumVal wifi_iface_state) =
      [ some 0, some 1, some 2, some 3, some 4, some 5, some 6, some 7, some 8, some 9 ] ∧
    List.Pairwise (fun a b => a < b)
      (((enumValues wifi_iface_state).take 10).map (fun m => m.2)) := by
  decide

/-- C7: the enumerations with a `*_MAX` sentinel are the nine named ones; in each
of them `*_MAX` has the value of the last non-sentinel member; and in each
enumeration with a `*_UNKNOWN` sentinel, `*_UNKNOWN` is `*_MAX + 1` and differs
from the value of every non-sentinel member. -/
theorem max_and_unknown_sentinels :
    ((wifi_h_enums.filter (fun e => hasMaxMember e.2)).map (fun e => e.1) =
      [ "wifi_security_type", "wifi_wpa3_enterprise_type", "wifi_mfp_options",
        "wifi_frequency_bands", "wifi_frequency_bandwidths", "wifi_iface_state",
        "wifi_iface_mode", "wifi_link_mode", "wifi_ps_exit_strategy" ]) ∧
    (∀ e ∈ wifi_h_enums, ∀ m ∈ enumValues e.2, isMaxName m.1 = true →
      (lastNonSentinel (enumValues e.2)).map (fun r => r.2) = some m.2) ∧
    (∀ e ∈ wifi_h_enums, ∀ u ∈ enumValues e.2, isUnknownName u.1 = true →
      (∃ m ∈ enumValues e.2, isMaxName m.1 = true ∧ u.2 = m.2 + 1) ∧
      (∀ r ∈ enumValues e.2, isSentinel r.1 = false → r.2 ≠ u.2)) ∧
    (lastNonSentinel (enumValues wifi_security_type) =
        some ("WIFI_SECURITY_TYPE_SAE_EXT_KEY", 20) ∧
      enumVal wifi_security_type "WIFI_SECURITY_TYPE_MAX" = some 20 ∧
      enumVal wifi_security_type "WIFI_SECURITY_TYPE_UNKNOWN" = some 21) ∧
    (lastNonSentinel (enumValues wifi_wpa3_enterprise_type) =
        some ("WIFI_WPA3_ENTERPRISE_ONLY", 3) ∧
      enumVal wifi_wpa3_enterprise_type "WIFI_WPA3_ENTERPRISE_MAX" = some 3 ∧
      enumVal wifi_wpa3_enterprise_type "WIFI_WPA3_ENTERPRISE_UNKNOWN" = some 4) ∧
    (lastNonSentinel (enumValues wifi_mfp_options) = some ("WIFI_MFP_REQUIRED", 2) ∧
      enumVal wifi_mfp_options "WIFI_MFP_MAX" = some 2 ∧
      enumVal wifi_mfp_options "WIFI_MFP_UNKNOWN" = some 3) ∧
    (lastNonSentinel (enumValues wifi_frequency_bands) = some ("WIFI_FREQ_BAND_6_GHZ", 2) ∧
      enumVal wifi_frequency_bands "WIFI_FREQ_BAND_MAX" = some 2 ∧
      enumVal wifi_frequency_bands "WIFI_FREQ_BAND_UNKNOWN" = some 3) ∧
    (lastNonSentinel (enumValues wifi_frequency_bandwidths) =
        some ("WIFI_FREQ_BANDWIDTH_80MHZ", 3) ∧
      enumVal wifi_frequency_bandwidths "WIFI_FREQ_BANDWIDTH_MAX" = some 3 ∧
      enumVal wifi_frequency_bandwidths "WIFI_FREQ_BANDWIDTH_UNKNOWN" = some 4) ∧
    (lastNonSentinel (enumValues wifi_iface_state) = some ("WIFI_STATE_COMPLETED", 9) ∧
      enumVal wifi_iface_state "WIFI_STATE_MAX" = some 9 ∧
      enumVal wifi_iface_state "WIFI_STATE_UNKNOWN" = some 10) ∧
    (lastNonSentinel (enumValues wifi_iface_mode) = some ("WIFI_MODE_MESH", 5) ∧
      enumVal wifi_iface_mode "WIFI_MODE_MAX" = some 5 ∧
      enumVal wifi_iface_mode "WIFI_MODE_UNKNOWN" = some 6) ∧
    (lastNonSentinel (enumValues wifi_link_mode) = some ("WIFI_7", 8) ∧
      enumVal wifi_link_mode "WIFI_LINK_MODE_MAX" = some 8 ∧
      enumVal wifi_link_mode "WIFI_LINK_MODE_UNKNOWN" = some 9) ∧
    (lastNonSentinel (enumValues wifi_ps_exit_strategy) = some ("WIFI_PS_EXIT_EVERY_TIM", 1) ∧
      enumVal wifi_ps_exit_strategy "WIFI_PS_EXIT_MAX" = some 1) := by
  decide

/-- C8: in each bit-flag family (`wifi_operational_modes`, `wifi_filter`,
`wifi_ap_config_param`, `wifi_config_param`) every member has exactly one bit
set, and two different members of one family have bitwise AND 0. -/
theorem bit_flag_families_disjoint :
    (enumValues wifi_operational_modes).map (fun m => m.2) = [1, 2, 4, 8, 16, 32] ∧
    (enumValues wifi_filter).map (fun m => m.2) = [1, 2, 4, 8] ∧
    (enumValues wifi_ap_config_param).map (fun m => m.2) = [1, 2, 4, 8, 16] ∧
    (enumValues wifi_config_param).map (fun m => m.2) = [1] ∧
    (∀ fam ∈ [wifi_operational_modes, wifi_filter, wifi_ap_config_param, wifi_config_param],
      (∀ m ∈ enumValues fam, 0 ≤ m.2 ∧ bitCount m.2 = 1) ∧
      (∀ a ∈ enumValues fam, ∀ b ∈ enumValues fam, a.1 ≠ b.1 →
        a.2.toNat &&& b.2.toNat = 0)) := by
  decide

/-! ## Telling the placeholder from a table entry -/

/-- C9: for every non-negative signed 16-bit index `i`,
`wifi_twt_get_err_code_str i` is "<unknown>" if and only if `i >= 11`, and
`wifi_ps_get_config_err_code_str i` is "<unknown>" if and only if `i >= 7`; no
entry of either table is the placeholder string. -/
theorem unknown_iff_out_of_range (i : Int) (h0 : 0 ≤ i) (h1 : i ≤ 32767) :
    isInt16 i ∧
    (wifi_twt_get_err_code_str i = some (CStr.lit "<unknown>") ↔ 11 ≤ i) ∧
    (wifi_ps_get_config_err_code_str i = some (CStr.lit "<unknown>") ↔ 7 ≤ i) ∧
    CStr.lit "<unknown>" ∉ wifi_twt_err_code_tbl ∧
    CStr.lit "<unknown>" ∉ wifi_ps_param_config_err_code_tbl := by
  refine ⟨⟨by omega, h1⟩, ⟨?_, twt_str_of_ge i⟩, ⟨?_, ps_str_of_ge i⟩, by decide, by decide⟩
  · intro h
    by_contra hlt
    have hlt11 : i < 11 := by omega
    revert h
    interval_cases i <;> decide
  · intro h
    by_contra hlt
    have hlt7 : i < 7 := by omega
    revert h
    interval_cases i <;> decide

theorem unknown_iff_out_of_range_witness :
    (0 : Int) ≤ 7 ∧ (7 : Int) ≤ 32767 ∧
    (wifi_twt_get_err_code_str 7 = some (CStr.lit "<unknown>") ↔ (11 : Int) ≤ 7) ∧
    (wifi_ps_get_config_err_code_str 7 = some (CStr.lit "<unknown>") ↔ (7 : Int) ≤ 7) :=
  ⟨by decide, by decide,
    (unknown_iff_out_of_range 7 (by decide) (by decide)).2.1,
    (unknown_iff_out_of_range 7 (by decide) (by decide)).2.2.1⟩

/-! ## Which enumerations carry sentinels -/

/-- C10 as stated fails: `enum wifi_eap_type` is an enumeration of the file with
neither a `*_MAX` nor a `*_UNKNOWN` member, and `enum wifi_ps_exit_strategy` has
a `*_MAX` member but no `*_UNKNOWN` member. -/
theorem not_every_enum_has_sentinel_pair :
    ("wifi_eap_type", wifi_eap_type) ∈ wifi_h_enums ∧
    hasMaxMember wifi_eap_type = false ∧
    hasUnknownMember wifi_eap_type = false ∧
    ("wifi_ps_exit_strategy", wifi_ps_exit_strategy) ∈ wifi_h_enums ∧
    hasMaxMember wifi_ps_exit_strategy = true ∧
    hasUnknownMember wifi_ps_exit_strategy = false ∧
    ¬ (∀ e ∈ wifi_h_enums, hasUnknownMember e.2 = true ∧ hasMaxMember e.2 = true) := by
  decide

/-- C10 as amended: of the 31 enumerations of the file exactly eight have both an
explicit `*_UNKNOWN` and an explicit `*_MAX` member, `wifi_ps_exit_strategy` has
`*_MAX` only, and the other 22 have neither. -/
theorem enums_with_sentinel_pair :
    wifi_h_enums.length = 31 ∧
    (wifi_h_enums.filter
        (fun e => hasUnknownMember e.2 && hasMaxMember e.2)).map (fun e => e.1) =
      [ "wifi_security_type", "wifi_wpa3_enterprise_type", "wifi_mfp_options",
        "wifi_frequency_bands", "wifi_frequency_bandwidths", "wifi_iface_state",
        "wifi_iface_mode", "wifi_link_mode" ] ∧
    (wifi_h_enums.filter
        (fun e => !hasUnknownMember e.2 && hasMaxMember e.2)).map (fun e => e.1) =
      [ "wifi_ps_exit_strategy" ] ∧
    (wifi_h_enums.filter
        (fun e => hasUnknownMember e.2 && !hasMaxMember e.2)).map (fun e => e.1) = [] ∧
    (wifi_h_enums.filter
        (fun e => !hasUnknownMember e.2 && !hasMaxMember e.2)).map (fun e => e.1) =
      [ "wifi_conn_status", "wifi_eap_type", "wifi_eap_tls_cipher_type", "wifi_cipher_type",
        "wifi_group_mgmt_cipher_type", "wifi_scan_type", "wifi_ps", "wifi_ps_mode",
        "wifi_operational_modes", "wifi_filter", "wifi_twt_operation",
        "wifi_twt_negotiation_type", "wifi_twt_setup_cmd", "wifi_twt_setup_resp_status",
        "wifi_twt_fail_reason", "wifi_twt_teardown_status", "wifi_ps_param_type",
        "wifi_ps_wakeup_mode", "wifi_config_ps_param_fail_reason", "wifi_btm_query_reason",
        "wifi_ap_config_param", "wifi_config_param" ] := by
  decide

/-! ## Wire values and constants -/

/-- C11: `enum wifi_btm_query_reason` has exactly three members, with the wire
values `WIFI_BTM_QUERY_REASON_UNSPECIFIED = 0`, `WIFI_BTM_QUERY_REASON_LOW_RSSI = 16`
and `WIFI_BTM_QUERY_REASON_LEAVING_ESS = 20`. -/
theorem wifi_btm_query_reason_values :
    enumValues wifi_btm_query_reason =
      [ ("WIFI_BTM_QUERY_REASON_UNSPECIFIED", 0),
        ("WIFI_BTM_QUERY_REASON_LOW_RSSI", 16),
        ("WIFI_BTM_QUERY_REASON_LEAVING_ESS", 20) ] ∧
    wifi_btm_query_reason.length = 3 := by
  decide

/-- C12: the length constants are `WIFI_COUNTRY_CODE_LEN = 2`,
`WIFI_SSID_MAX_LEN = 32`, `WIFI_PSK_MIN_LEN = 8`, `WIFI_PSK_MAX_LEN = 64`,
`WIFI_SAE_PSWD_MAX_LEN = 128`, `WIFI_MAC_ADDR_LEN = 6`,
`WIFI_ENT_IDENTITY_MAX_LEN = 64`, `WIFI_ENT_PSWD_MAX_LEN = 128`, and so
`WIFI_PSK_MIN_LEN <= WIFI_PSK_MAX_LEN`. -/
theorem wifi_length_constants :
    WIFI_COUNTRY_CODE_LEN = 2 ∧ WIFI_SSID_MAX_LEN = 32 ∧ WIFI_PSK_MIN_LEN = 8 ∧
    WIFI_PSK_MAX_LEN = 64 ∧ WIFI_SAE_PSWD_MAX_LEN = 128 ∧ WIFI_MAC_ADDR_LEN = 6 ∧
    WIFI_ENT_IDENTITY_MAX_LEN = 64 ∧ WIFI_ENT_PSWD_MAX_LEN = 128 ∧
    WIFI_PSK_MIN_LEN ≤ WIFI_PSK_MAX_LEN := by
  decide

/-- C13: the valid channel range is `[WIFI_CHANNEL_MIN, WIFI_CHANNEL_MAX] = [1, 233]`;
the sentinel `WIFI_CHANNEL_ANY = 255` lies outside that range and fits in an
unsigned 8-bit value. -/
theorem wifi_channel_range :
    WIFI_CHANNEL_MIN = 1 ∧ WIFI_CHANNEL_MAX = 233 ∧ WIFI_CHANNEL_ANY = 255 ∧
    WIFI_CHANNEL_MIN ≤ WIFI_CHANNEL_MAX ∧
    ¬ (WIFI_CHANNEL_MIN ≤ WIFI_CHANNEL_ANY ∧ WIFI_CHANNEL_ANY ≤ WIFI_CHANNEL_MAX) ∧
    0 ≤ WIFI_CHANNEL_ANY ∧ WIFI_CHANNEL_ANY < 2 ^ 8 := by
  decide

/-- C14: the listen-interval range is
`[WIFI_LISTEN_INTERVAL_MIN, WIFI_LISTEN_INTERVAL_MAX] = [0, 65535]`, with
`WIFI_LISTEN_INTERVAL_MAX = 2^16 - 1`: an integer lies in the range exactly when
it is an unsigned 16-bit value. -/
theorem wifi_listen_interval_range :
    WIFI_LISTEN_INTERVAL_MIN = 0 ∧ WIFI_LISTEN_INTERVAL_MAX = 65535 ∧
    WIFI_LISTEN_INTERVAL_MAX = 2 ^ 16 - 1 ∧
    (∀ n : Int, (WIFI_LISTEN_INTERVAL_MIN ≤ n ∧ n ≤ WIFI_LISTEN_INTERVAL_MAX) ↔
      (0 ≤ n ∧ n < 2 ^ 16)) := by
  refine ⟨by decide, by decide, by decide, ?_⟩
  intro n
  unfold WIFI_LISTEN_INTERVAL_MIN WIFI_LISTEN_INTERVAL_MAX
  omega

/-! ## Member counts of the frequency enumerations -/

/-- C15 (the code at `enum wifi_frequency_bandwidths`): the enumeration has the
three non-sentinel members 20MHZ = 1, 40MHZ = 2, 80MHZ = 3, while
`__WIFI_FREQ_BANDWIDTH_AFTER_LAST`, documented as the number of frequency
bandwidths available, has the value 4. -/
theorem wifi_freq_bandwidth_after_last_value :
    realMembers wifi_frequency_bandwidths =
      [ ("WIFI_FREQ_BANDWIDTH_20MHZ", 1), ("WIFI_FREQ_BANDWIDTH_40MHZ", 2),
        ("WIFI_FREQ_BANDWIDTH_80MHZ", 3) ] ∧
    (realMembers wifi_frequency_bandwidths).length = 3 ∧
    enumVal wifi_frequency_bandwidths "__WIFI_FREQ_BANDWIDTH_AFTER_LAST" = some 4 ∧
    enumVal wifi_frequency_bandwidths "__WIFI_FREQ_BANDWIDTH_AFTER_LAST" ≠
      some ((realMembers wifi_frequency_bandwidths).length : Int) := by
  decide

/-- C16: in `enum wifi_frequency_bands`, `__WIFI_FREQ_BAND_AFTER_LAST` equals the
number of non-sentinel members (`WIFI_FREQ_BAND_2_4_GHZ`, `WIFI_FREQ_BAND_5_GHZ`,
`WIFI_FREQ_BAND_6_GHZ`), which is 3, and `WIFI_FREQ_BAND_MAX` is the highest of
their values. -/
theorem wifi_freq_band_after_last_is_count :
    realMembers wifi_frequency_bands =
      [ ("WIFI_FREQ_BAND_2_4_GHZ", 0), ("WIFI_FREQ_BAND_5_GHZ", 1),
        ("WIFI_FREQ_BAND_6_GHZ", 2) ] ∧
    enumVal wifi_frequency_bands "__WIFI_FREQ_BAND_AFTER_LAST" =
      some ((realMembers wifi_frequency_bands).length : Int) ∧
    enumVal wifi_frequency_bands "__WIFI_FREQ_BAND_AFTER_LAST" = some 3 ∧
    enumVal wifi_frequency_bands "WIFI_FREQ_BAND_MAX" = some 2 ∧
    (∀ m ∈ realMembers wifi_frequency_bands, m.2 ≤ 2) ∧
    (∃ m ∈ realMembers wifi_frequency_bands, m.2 = 2) := by
  decide

/-! ## Coverage of the failure-reason enumerations by the tables -/

/-- C17 (the code at `WIFI_PS_PARAM_FAIL_INVALID_EXIT_STRATEGY`): the enumeration
`wifi_config_ps_param_fail_reason` has eight members, 0..7, the table
`wifi_ps_param_config_err_code_tbl` has seven entries, and for the last member,
of value 7, `wifi_ps_get_config_err_code_str` returns the fallback "<unknown>";
the seven members before it get a label of their own. -/
theorem wifi_ps_invalid_exit_strategy_unlabelled :
    (enumValues wifi_config_ps_param_fail_reason).map (fun m => m.2) =
      [0, 1, 2, 3, 4, 5, 6, 7] ∧
    ARRAY_SIZE wifi_ps_param_config_err_code_tbl = 7 ∧
    enumVal wifi_config_ps_param_fail_reason "WIFI_PS_PARAM_FAIL_INVALID_EXIT_STRATEGY" =
      some 7 ∧
    isInt16 7 ∧
    wifi_ps_get_config_err_code_str 7 = some (CStr.lit "<unknown>") ∧
    (∀ m ∈ (enumValues wifi_config_ps_param_fail_reason).take 7,
      wifi_ps_get_config_err_code_str m.2 ≠ some (CStr.lit "<unknown>")) := by
  decide

/-- C18: for every member `m` of `enum wifi_twt_fail_reason`,
`wifi_twt_get_err_code_str m` returns a label different from "<unknown>" (the
eleven labels are listed), distinct members get distinct labels, and the table
length 11 equals the number of members. -/
theorem wifi_twt_fail_reason_labelled :
    (enumValues wifi_twt_fail_reason).length = 11 ∧
    ARRAY_SIZE wifi_twt_err_code_tbl = (enumValues wifi_twt_fail_reason).length ∧
    (enumValues wifi_twt_fail_reason).map
        (fun m => (m.1, m.2, wifi_twt_get_err_code_str m.2)) =
      [ ("WIFI_TWT_FAIL_UNSPECIFIED", 0, some (CStr.lit "Unspecified")),
        ("WIFI_TWT_FAIL_CMD_EXEC_FAIL", 1, some (CStr.lit "Command Execution failed")),
        ("WIFI_TWT_FAIL_OPERATION_NOT_SUPPORTED", 2,
          some (CStr.lit "Operation not supported")),
        ("WIFI_TWT_FAIL_UNABLE_TO_GET_IFACE_STATUS", 3,
          some (CStr.lit "Unable to get iface status")),
        ("WIFI_TWT_FAIL_DEVICE_NOT_CONNECTED", 4, some (CStr.lit "Device not connected")),
        ("WIFI_TWT_FAIL_PEER_NOT_HE_CAPAB", 5, some (CStr.lit "Peer not HE capable")),
        ("WIFI_TWT_FAIL_PEER_NOT_TWT_CAPAB", 6, some (CStr.lit "Peer not TWT capable")),
        ("WIFI_TWT_FAIL_OPERATION_IN_PROGRESS", 7,
          some (CStr.lit "Operation already in progress")),
        ("WIFI_TWT_FAIL_INVALID_FLOW_ID", 8, some (CStr.lit "Invalid negotiated flow id")),
        ("WIFI_TWT_FAIL_IP_NOT_ASSIGNED", 9, some (CStr.lit "IP address not assigned")),
        ("WIFI_TWT_FAIL_FLOW_ALREADY_EXISTS", 10, some (CStr.lit "Flow already exists")) ] ∧
    (∀ m ∈ enumValues wifi_twt_fail_reason,
      wifi_twt_get_err_code_str m.2 ≠ some (CStr.lit "<unknown>") ∧
      wifi_twt_get_err_code_str m.2 ≠ some CStr.null ∧
      wifi_twt_get_err_code_str m.2 ≠ none) ∧
    (∀ a ∈ enumValues wifi_twt_fail_reason, ∀ b ∈ enumValues wifi_twt_fail_reason,
      a.1 ≠ b.1 → wifi_twt_get_err_code_str a.2 ≠ wifi_twt_get_err_code_str b.2) := by
  decide

/-! ## Value ranges of the security and EAP enumerations -/

/-- C19: the non-sentinel members of `enum wifi_security_type` take exactly the
values 0..`WIFI_SECURITY_TYPE_MAX` = 20: each value lies in [0, 20], each integer
of [0, 20] is the value of some member, the only members that share a value are
the aliases `WIFI_SECURITY_TYPE_SAE_HNP` = `WIFI_SECURITY_TYPE_SAE` = 3 and
`WIFI_SECURITY_TYPE_EAP_TLS` = `WIFI_SECURITY_TYPE_EAP` = 7, and
`WIFI_SECURITY_TYPE_UNKNOWN` = 21 is outside the range. -/
theorem wifi_security_type_range :
    enumVal wifi_security_type "WIFI_SECURITY_TYPE_MAX" = some 20 ∧
    enumVal wifi_security_type "WIFI_SECURITY_TYPE_UNKNOWN" = some 21 ∧
    (realMembers wifi_security_type).length = 23 ∧
    (∀ m ∈ realMembers wifi_security_type, 0 ≤ m.2 ∧ m.2 ≤ 20) ∧
    (∀ v ∈ List.range 21, ∃ m ∈ realMembers wifi_security_type, m.2 = (v : Int)) ∧
    (∀ a ∈ realMembers wifi_security_type, ∀ b ∈ realMembers wifi_security_type,
      a.1 ≠ b.1 → a.2 = b.2 →
        (a.1, b.1) ∈ [ ("WIFI_SECURITY_TYPE_SAE", "WIFI_SECURITY_TYPE_SAE_HNP"),
                       ("WIFI_SECURITY_TYPE_SAE_HNP", "WIFI_SECURITY_TYPE_SAE"),
                       ("WIFI_SECURITY_TYPE_EAP", "WIFI_SECURITY_TYPE_EAP_TLS"),
                       ("WIFI_SECURITY_TYPE_EAP_TLS", "WIFI_SECURITY_TYPE_EAP") ]) ∧
    enumVal wifi_security_type "WIFI_SECURITY_TYPE_SAE" = some 3 ∧
    enumVal wifi_security_type "WIFI_SECURITY_TYPE_SAE_HNP" = some 3 ∧
    enumVal wifi_security_type "WIFI_SECURITY_TYPE_EAP" = some 7 ∧
    enumVal wifi_security_type "WIFI_SECURITY_TYPE_EAP_TLS" = some 7 ∧
    (∀ m ∈ realMembers wifi_security_type, m.2 ≠ 21) := by
  decide

/-- C20: the members of `enum wifi_eap_type` have the EAP method type numbers
`WIFI_EAP_TYPE_NONE = 0`, `WIFI_EAP_TYPE_GTC = 6`, `WIFI_EAP_TYPE_TLS = 13`,
`WIFI_EAP_TYPE_TTLS = 21`, `WIFI_EAP_TYPE_PEAP = 25`, `WIFI_EAP_TYPE_MSCHAPV2 = 26`,
and the six values are pairwise distinct. -/
theorem wifi_eap_type_values :
    enumValues wifi_eap_type =
      [ ("WIFI_EAP_TYPE_NONE", 0), ("WIFI_EAP_TYPE_GTC", 6), ("WIFI_EAP_TYPE_TLS", 13),
        ("WIFI_EAP_TYPE_TTLS", 21), ("WIFI_EAP_TYPE_PEAP", 25),
        ("WIFI_EAP_TYPE_MSCHAPV2", 26) ] ∧
    List.Pairwise (fun a b => a ≠ b) ((enumValues wifi_eap_type).map (fun m => m.2)) := by
  decide

end Wifi
